import Mathlib

/-!
Verification of the holoconf Python CLI (src/holoconf/cli.py), the plugin
discovery function (src/holoconf/__init__.py) and the AWS SSM resolver
(src/holoconf_aws/ssm.py), as a shallow embedding in Lean.

The core engine (Config, Schema, register_resolver) is a compiled extension
module (holoconf._holoconf); its calls are modelled as abstract outcomes
(Except values) supplied by an environment record, matching the fact that
the Python code under study only branches on whether those calls raise a
HoloconfError (or one of its subclasses) or return normally.
-/

namespace Holoconf

/-- The HoloconfError hierarchy of the Python package: every subclass listed
in the module docstring, plus the base class itself.  The Python handlers
under study catch the base class, hence every kind uniformly. -/
inductive HoloErr
  | parseError
  | validationError
  | resolverError
  | pathNotFoundError
  | circularReferenceError
  | typeCoercionError
  | base
deriving DecidableEq, Repr

/-- Whether a collaborator call returned normally (no exception). -/
def exOk {ε α : Type} : Except ε α → Bool
  | .ok _ => true
  | .error _ => false

/-- Python values as far as the CLI inspects them: the isinstance checks in
cmd_get distinguish dict, list, None and everything else. -/
inductive PyValue
  | none
  | bool (b : Bool)
  | int (n : Int)
  | str (s : String)
  | list (xs : List PyValue)
  | dict (kvs : List (String × PyValue))

/- ------------------------------------------------------------------ -/
/- cmd_validate                                                        -/
/- ------------------------------------------------------------------ -/

/-- Outcomes of the collaborator calls made by one invocation of
cmd_validate: Schema.load, load_config, config.validate(schema) and
config.validate_raw(schema).  Each either returns or raises a
HoloconfError. -/
structure ValidateEnv where
  schemaLoad : Except HoloErr Unit
  configLoad : Except HoloErr Unit
  validateResolved : Except HoloErr Unit
  validateRaw : Except HoloErr Unit

/-- Which validation entry point cmd_validate invoked. -/
inductive ValidateCall
  | resolved
  | raw
deriving DecidableEq, Repr

/-- Embedding of cmd_validate (cli.py lines 101-142): returns the exit code
together with the list of validation calls performed. -/
def cmd_validate (env : ValidateEnv) (resolve : Bool) : Nat × List ValidateCall :=
  match env.schemaLoad with
  | .error _ => (2, [])
  | .ok _ =>
    match env.configLoad with
    | .error _ => (2, [])
    | .ok _ =>
      let call := if resolve then ValidateCall.resolved else ValidateCall.raw
      let res := if resolve then env.validateResolved else env.validateRaw
      match res with
      | .ok _ => (0, [call])
      | .error _ => (1, [call])

/- ------------------------------------------------------------------ -/
/- cmd_dump                                                            -/
/- ------------------------------------------------------------------ -/

/-- One invocation of the serializer (config.to_json or config.to_yaml)
with the keyword arguments the CLI passed. -/
structure SerializeCall where
  toJson : Bool
  resolve : Bool
  redact : Bool
deriving DecidableEq, Repr

/-- Outcomes of the collaborator calls made by one invocation of cmd_dump:
load_config, and the serializers as functions of the (resolve, redact)
arguments the CLI chooses. -/
structure DumpEnv where
  configLoad : Except HoloErr Unit
  to_json : Bool → Bool → Except HoloErr String
  to_yaml : Bool → Bool → Except HoloErr String

/-- Embedding of cmd_dump (cli.py lines 145-175): returns the exit code and
the serializer invocations performed.  The output path only selects where
the content is written; it does not affect the exit code or the serializer
arguments. -/
def cmd_dump (env : DumpEnv) (resolve no_redact : Bool) (fmt : String)
    (output : Option String) : Nat × List SerializeCall :=
  match env.configLoad with
  | .error _ => (2, [])
  | .ok _ =>
    let redact := !no_redact
    let isJson := fmt == "json"
    let content := if isJson then env.to_json resolve redact else env.to_yaml resolve redact
    let call : SerializeCall := ⟨isJson, resolve, redact⟩
    match content with
    | .ok _ =>
      match output with
      | some _ => (0, [call])
      | none => (0, [call])
    | .error _ => (1, [call])

/- ------------------------------------------------------------------ -/
/- cmd_get                                                             -/
/- ------------------------------------------------------------------ -/

/-- Outcomes of the collaborator calls made by one invocation of cmd_get:
load_config, config.get(path) and config.get_raw(path). -/
structure GetEnv where
  configLoad : Except HoloErr Unit
  getResolved : Except HoloErr PyValue
  getRaw : Except HoloErr PyValue

/-- What cmd_get writes to stdout, one event per print call, recording
which library call produced the text. -/
inductive OutLine
  | jsonDump (v : PyValue)
  | yamlDump (v : PyValue)
  | printValue (v : PyValue)
  | printNull
  | printStr (s : String)

/-- What the CLI writes to stderr, abstracted to the two messages of
cmd_get. -/
inductive ErrLine
  | loadFailed
  | pathNotFound (path : String)

/-- Embedding of cmd_get (cli.py lines 178-221): exit code, stdout events,
stderr events. -/
def cmd_get (env : GetEnv) (path : String) (resolve : Bool) (fmt : String)
    (dflt : Option String) : Nat × List OutLine × List ErrLine :=
  match env.configLoad with
  | .error _ => (2, [], [ErrLine.loadFailed])
  | .ok _ =>
    match (if resolve then env.getResolved else env.getRaw) with
    | .ok value =>
      let line :=
        if fmt == "json" then
          OutLine.jsonDump value
        else if fmt == "yaml" then
          match value with
          | .dict kvs => OutLine.yamlDump (.dict kvs)
          | .list xs => OutLine.yamlDump (.list xs)
          | v => OutLine.printValue v
        else
          match value with
          | .dict kvs => OutLine.jsonDump (.dict kvs)
          | .list xs => OutLine.jsonDump (.list xs)
          | .none => OutLine.printNull
          | v => OutLine.printValue v
      (0, [line], [])
    | .error _ =>
      match dflt with
      | some d => (0, [OutLine.printStr d], [])
      | none => (1, [], [ErrLine.pathNotFound path])

/- ------------------------------------------------------------------ -/
/- cmd_check                                                           -/
/- ------------------------------------------------------------------ -/

/-- One file given to cmd_check: the outcome of file.read_text (none
models FileNotFoundError), the lower-cased extension, and whether the
corresponding parser (json.loads for ".json", Config.loads otherwise)
accepts the content. -/
structure CheckFile where
  name : String
  suffix : String
  readResult : Option String
  jsonParses : Bool
  yamlParses : Bool

/-- Whether one iteration of the cmd_check loop succeeds for a file. -/
def checkFileValid (f : CheckFile) : Bool :=
  match f.readResult with
  | none => false
  | some _ => if f.suffix == ".json" then f.jsonParses else f.yamlParses

/-- The loop of cmd_check: carries the all_valid accumulator across every
file and records each per-file outcome (the loop never breaks early). -/
def cmd_checkLoop (acc : Bool) : List CheckFile → Bool × List Bool
  | [] => (acc, [])
  | f :: rest =>
    let v := checkFileValid f
    let r := cmd_checkLoop (acc && v) rest
    (r.1, v :: r.2)

/-- Embedding of cmd_check (cli.py lines 224-250): exit code and the trace
of per-file outcomes. -/
def cmd_check (files : List CheckFile) : Nat × List Bool :=
  let r := cmd_checkLoop true files
  (if r.1 then 0 else 1, r.2)

/- ------------------------------------------------------------------ -/
/- SSM resolver                                                        -/
/- ------------------------------------------------------------------ -/

/-- The get_parameter response as the resolver reads it: both fields are
read with .get and a fallback default. -/
structure SsmResponse where
  value : Option String
  ptype : Option String
deriving DecidableEq, Repr

/-- Outcome of the AWS client call client.get_parameter: either a response
or a botocore ClientError carrying the Error.Code field. -/
inductive SsmClientResult
  | ok (resp : SsmResponse)
  | clientError (code : String)
deriving DecidableEq, Repr

/-- Exceptions SsmResolver.__call__ can raise: ValueError for a malformed
path, KeyError (the NotFound marker) for ParameterNotFound, and a
re-raised ClientError for every other client failure. -/
inductive SsmError
  | valueError (path : String)
  | keyError (path : String)
  | clientError (code : String)
deriving DecidableEq, Repr

/-- Values SsmResolver.__call__ can return: a raw string, a ResolvedValue
wrapper with a sensitive bit, or a list of strings. -/
inductive SsmValue
  | str (s : String)
  | resolvedValue (s : String) (sensitive : Bool)
  | list (xs : List String)
deriving DecidableEq, Repr

/-- The Python test path.startswith of the single-character string slash:
true exactly when the first character of the path is a slash. -/
def startsWithSlash (path : String) : Bool :=
  match path.data with
  | [] => false
  | c :: _ => c == '/'

/-- Embedding of SsmResolver.__call__ (ssm.py lines 57-106): the result of
the call paired with the number of get_parameter requests issued. -/
def SsmResolver.call (path : String) (client : SsmClientResult) :
    Except SsmError SsmValue × Nat :=
  if !startsWithSlash path then
    (.error (.valueError path), 0)
  else
    match client with
    | .clientError code =>
      if code == "ParameterNotFound" then (.error (.keyError path), 1)
      else (.error (.clientError code), 1)
    | .ok resp =>
      let value := resp.value.getD ""
      let ptype := resp.ptype.getD "String"
      if ptype == "SecureString" then (.ok (.resolvedValue value true), 1)
      else if ptype == "StringList" then (.ok (.list (value.splitOn ",")), 1)
      else (.ok (.str value), 1)

/-- Whether a resolver outcome is the NotFound marker (Python KeyError). -/
def isNotFound : Except SsmError SsmValue → Bool
  | .error (.keyError _) => true
  | _ => false

/-- Modelled from the spec: the engine-level default handling lives in the
compiled core, not in the Python sources.  Per the spec, the default kwarg
is applied only when the resolver signals absence via the NotFound marker;
every other resolver outcome, success or failure, passes through
unchanged. -/
def applyEngineDefault (r : Except SsmError SsmValue) (dflt : Option String) :
    Except SsmError SsmValue :=
  match r, dflt with
  | .error (.keyError _), some d => .ok (.str d)
  | r, _ => r

/- ------------------------------------------------------------------ -/
/- Resolver registration                                               -/
/- ------------------------------------------------------------------ -/

/-- The process-wide resolver registry: a mapping from resolver name to a
resolver object, here identified by a number. -/
structure Registry where
  resolvers : List (String × Nat)
deriving DecidableEq, Repr

/-- Whether a name is registered. -/
def Registry.hasName (reg : Registry) (name : String) : Bool :=
  reg.resolvers.any (fun p => p.1 == name)

/-- Modelled from the spec: register_resolver lives in the compiled core
(holoconf._holoconf), not in the Python sources.  Per the spec, it
registers or no-ops: a non-force re-registration of an existing name is a
no-op raising no error; a force registration overwrites. -/
def register_resolver (reg : Registry) (name : String) (r : Nat) (force : Bool) :
    Registry :=
  if reg.hasName name && !force then reg
  else ⟨(name, r) :: reg.resolvers.filter (fun p => p.1 != name)⟩

/-- The state touched by register_ssm: the module-level _registered flag of
holoconf_aws.ssm together with the process registry. -/
structure SsmState where
  registered : Bool
  reg : Registry
deriving DecidableEq, Repr

/-- Embedding of register_ssm (ssm.py lines 124-144): guarded by the
_registered flag, it builds a fresh SsmResolver (modelled by the id of the
resolver object the call would create) and hands it to register_resolver
under the name ssm. -/
def register_ssm (st : SsmState) (force : Bool) (newId : Nat) : SsmState :=
  if st.registered && !force then st
  else ⟨true, register_resolver st.reg "ssm" newId force⟩

/- ------------------------------------------------------------------ -/
/- Plugin discovery                                                    -/
/- ------------------------------------------------------------------ -/

/-- One installed holoconf.resolvers entry point: its name and the outcome
of running ep.load() followed by the registration function (an error
models any exception raised by either step). -/
structure EntryPoint where
  name : String
  runResult : Except String Unit

/-- Whether running the plugin raised no exception. -/
def epOk (ep : EntryPoint) : Bool :=
  match ep.runResult with
  | .ok _ => true
  | .error _ => false

/-- Embedding of discover_plugins (__init__.py lines 80-106): each entry
point is attempted in order; an exception is caught (logged as a warning)
and the loop continues; names of successful plugins are collected. -/
def discover_plugins : List EntryPoint → List String
  | [] => []
  | ep :: rest =>
    match ep.runResult with
    | .ok _ => ep.name :: discover_plugins rest
    | .error _ => discover_plugins rest

/-- A dump environment whose configuration load raises a HoloconfError. -/
def dumpEnvLoadFail : DumpEnv :=
  ⟨.error HoloErr.parseError, fun _ _ => .ok "", fun _ _ => .ok ""⟩

/-- A get environment whose configuration load raises a HoloconfError. -/
def getEnvLoadFail : GetEnv :=
  ⟨.error HoloErr.parseError, .ok PyValue.none, .ok PyValue.none⟩

/- ------------------------------------------------------------------ -/
/- Theorems                                                            -/
/- ------------------------------------------------------------------ -/

/-- C1: for every invocation of the CLI validate command, the exit code is
0 exactly when both loads succeed and the chosen validation raises no
error, 1 exactly when both loads succeed and the validation fails, and 2
exactly when the schema or the configuration fails to load. -/
theorem validate_exit_codes (env : ValidateEnv) (resolve : Bool) :
    ((cmd_validate env resolve).1 = 0 ↔
      (exOk env.schemaLoad = true ∧ exOk env.configLoad = true ∧
        exOk (if resolve then env.validateResolved else env.validateRaw) = true)) ∧
    ((cmd_validate env resolve).1 = 1 ↔
      (exOk env.schemaLoad = true ∧ exOk env.configLoad = true ∧
        exOk (if resolve then env.validateResolved else env.validateRaw) = false)) ∧
    ((cmd_validate env resolve).1 = 2 ↔
      (exOk env.schemaLoad = false ∨ exOk env.configLoad = false)) := by
  obtain ⟨s, c, vr, vraw⟩ := env
  cases s <;> cases c <;> cases resolve <;> cases vr <;> cases vraw <;>
    simp [cmd_validate, exOk]

/-- C6: for every invocation of the CLI validate command whose loads
succeed, the resolved-tree validation (config.validate) is called exactly
when the resolve flag is given, otherwise the raw validation
(config.validate_raw) is called, and the exit code is 0 exactly when the
chosen call raises no error. -/
theorem validate_resolve_choice (env : ValidateEnv) (resolve : Bool)
    (hs : exOk env.schemaLoad = true) (hc : exOk env.configLoad = true) :
    (cmd_validate env resolve).2 =
      [if resolve then ValidateCall.resolved else ValidateCall.raw] ∧
    ((cmd_validate env resolve).1 = 0 ↔
      exOk (if resolve then env.validateResolved else env.validateRaw) = true) := by
  obtain ⟨s, c, vr, vraw⟩ := env
  cases s <;> cases c <;> simp_all [exOk] <;>
    cases resolve <;> cases vr <;> cases vraw <;> simp [cmd_validate, exOk]

/-- C6 witness: concrete invocation with all collaborator calls
succeeding and the resolve flag set. -/
theorem validate_resolve_choice_witness :
    (cmd_validate ⟨.ok (), .ok (), .ok (), .ok ()⟩ true).2 =
      [if true then ValidateCall.resolved else ValidateCall.raw] ∧
    ((cmd_validate ⟨.ok (), .ok (), .ok (), .ok ()⟩ true).1 = 0 ↔
      exOk (if true then Except.ok () else (Except.ok () : Except HoloErr Unit)) = true) :=
  validate_resolve_choice ⟨.ok (), .ok (), .ok (), .ok ()⟩ true rfl rfl

/-- C2 counterexample: when the configuration fails to load, cmd_dump and
cmd_get both exit with code 2, which is neither 0 nor 1, refuting the
claim that every invocation of dump and get exits with 0 or 1. -/
theorem dump_get_exit_code_two :
    ¬ ((cmd_dump dumpEnvLoadFail false false "yaml" none).1 = 0 ∨
       (cmd_dump dumpEnvLoadFail false false "yaml" none).1 = 1) ∧
    ¬ ((cmd_get getEnvLoadFail "a" false "text" none).1 = 0 ∨
       (cmd_get getEnvLoadFail "a" false "text" none).1 = 1) := by
  constructor <;> simp [cmd_dump, cmd_get, dumpEnvLoadFail, getEnvLoadFail]

/-- C2 amended: for every invocation of cmd_dump and cmd_get, the exit
code is 0, 1 or 2, and it is 2 exactly when the configuration fails to
load. -/
theorem dump_get_exit_codes (denv : DumpEnv) (resolve no_redact : Bool)
    (fmt : String) (output : Option String) (genv : GetEnv) (path : String)
    (gresolve : Bool) (gfmt : String) (dflt : Option String) :
    ((cmd_dump denv resolve no_redact fmt output).1 = 0 ∨
     (cmd_dump denv resolve no_redact fmt output).1 = 1 ∨
     (cmd_dump denv resolve no_redact fmt output).1 = 2) ∧
    ((cmd_dump denv resolve no_redact fmt output).1 = 2 ↔
      exOk denv.configLoad = false) ∧
    ((cmd_get genv path gresolve gfmt dflt).1 = 0 ∨
     (cmd_get genv path gresolve gfmt dflt).1 = 1 ∨
     (cmd_get genv path gresolve gfmt dflt).1 = 2) ∧
    ((cmd_get genv path gresolve gfmt dflt).1 = 2 ↔
      exOk genv.configLoad = false) := by
  refine ⟨?_, ?_, ?_, ?_⟩
  · obtain ⟨c, tj, ty⟩ := denv
    cases c <;> simp [cmd_dump, exOk]
    · split <;> rename_i h <;> cases h' : (if fmt == "json" then tj else ty) resolve (!no_redact) <;>
        simp_all [cmd_dump] <;> cases output <;> simp
  · obtain ⟨c, tj, ty⟩ := denv
    cases c <;> simp [cmd_dump, exOk] <;>
      cases h' : (if fmt == "json" then tj resolve (!no_redact) else ty resolve (!no_redact)) <;>
      simp_all [cmd_dump] <;> cases output <;> simp
  · obtain ⟨c, gr, graw⟩ := genv
    cases c <;> cases gresolve <;> cases gr <;> cases graw <;>
      simp [cmd_get, exOk] <;> cases dflt <;> simp
  · obtain ⟨c, gr, graw⟩ := genv
    cases c <;> cases gresolve <;> cases gr <;> cases graw <;>
      simp [cmd_get, exOk] <;> cases dflt <;> simp

/-- When the configuration loads, cmd_dump performs exactly one serializer
call: to to_json exactly for the json format, with the resolve flag
forwarded unchanged and redact equal to the negated no-redact flag. -/
theorem cmd_dump_trace (env : DumpEnv) (resolve no_redact : Bool)
    (fmt : String) (output : Option String)
    (hc : exOk env.configLoad = true) :
    (cmd_dump env resolve no_redact fmt output).2 =
      [⟨fmt == "json", resolve, !no_redact⟩] := by
  obtain ⟨c, tj, ty⟩ := env
  cases c with
  | error e => simp [exOk] at hc
  | ok u =>
    by_cases hj : (fmt == "json") = true
    · simp only [cmd_dump, hj, if_true]
      cases tj resolve !no_redact <;> cases output <;> simp [hj]
    · simp only [Bool.not_eq_true] at hj
      simp only [cmd_dump, hj, Bool.false_eq_true, if_false]
      cases ty resolve !no_redact <;> cases output <;> simp [hj]

/-- When the configuration fails to load, cmd_dump performs no serializer
call at all. -/
theorem cmd_dump_trace_loadFail (env : DumpEnv) (resolve no_redact : Bool)
    (fmt : String) (output : Option String)
    (hc : exOk env.configLoad = false) :
    (cmd_dump env resolve no_redact fmt output).2 = [] := by
  obtain ⟨c, tj, ty⟩ := env
  cases c with
  | error e => rfl
  | ok u => simp [exOk] at hc

/-- C5: every serializer call performed by cmd_dump carries redact equal to
the negation of the no-redact flag, and when the load succeeds exactly one
serializer call is made, to to_json exactly for the json format, with the
resolve flag forwarded unchanged. -/
theorem dump_redact_flag (env : DumpEnv) (resolve no_redact : Bool)
    (fmt : String) (output : Option String) :
    (∀ c ∈ (cmd_dump env resolve no_redact fmt output).2, c.redact = !no_redact) ∧
    (exOk env.configLoad = true →
      (cmd_dump env resolve no_redact fmt output).2 =
        [⟨fmt == "json", resolve, !no_redact⟩]) := by
  constructor
  · intro call hmem
    cases hcl : exOk env.configLoad with
    | true =>
      rw [cmd_dump_trace env resolve no_redact fmt output hcl] at hmem
      simp only [List.mem_singleton] at hmem
      rw [hmem]
    | false =>
      rw [cmd_dump_trace_loadFail env resolve no_redact fmt output hcl] at hmem
      simp at hmem
  · exact cmd_dump_trace env resolve no_redact fmt output

/-- C5 witness: a concrete dump invocation with a successful load and the
no-redact flag unset performs one yaml serializer call with redact true. -/
theorem dump_redact_flag_witness :
    (cmd_dump ⟨.ok (), fun _ _ => Except.ok "", fun _ _ => Except.ok ""⟩
        true false "yaml" none).2 = [⟨("yaml" == "json"), true, !false⟩] :=
  (dump_redact_flag ⟨.ok (), fun _ _ => Except.ok "", fun _ _ => Except.ok ""⟩
    true false "yaml" none).2 rfl

/-- The cmd_check loop computes the conjunction of the per-file outcomes
and records one outcome per file, in order. -/
theorem cmd_checkLoop_spec (acc : Bool) (files : List CheckFile) :
    cmd_checkLoop acc files =
      (acc && files.all checkFileValid, files.map checkFileValid) := by
  induction files generalizing acc with
  | nil => simp [cmd_checkLoop]
  | cons f rest ih => simp [cmd_checkLoop, ih, Bool.and_assoc]

/-- C7: cmd_check exits 0 exactly when every listed file parses, and it
records one outcome per file (the loop never stops at the first
failure). -/
theorem check_exit_codes (files : List CheckFile) :
    ((cmd_check files).1 = 0 ↔ files.all checkFileValid = true) ∧
    ((cmd_check files).1 = 0 ∨ (cmd_check files).1 = 1) ∧
    (cmd_check files).2 = files.map checkFileValid := by
  simp only [cmd_check, cmd_checkLoop_spec, Bool.true_and]
  cases h : files.all checkFileValid <;> simp [h]

/-- C8: once the configuration has loaded, any HoloconfError raised while
accessing the value makes cmd_get print the default and exit 0 when a
default is given, and print the path-not-found message and exit 1 when no
default is given, for every error kind; a load error instead exits 2
without ever printing the default. -/
theorem get_default_on_error (env env2 : GetEnv) (e e2 : HoloErr)
    (path : String) (resolve : Bool) (fmt : String) (d : String)
    (dflt2 : Option String)
    (hc : env.configLoad = .ok ())
    (he : (if resolve then env.getResolved else env.getRaw) = .error e)
    (hc2 : env2.configLoad = .error e2) :
    cmd_get env path resolve fmt (some d) = (0, [OutLine.printStr d], []) ∧
    cmd_get env path resolve fmt none = (1, [], [ErrLine.pathNotFound path]) ∧
    cmd_get env2 path resolve fmt dflt2 = (2, [], [ErrLine.loadFailed]) := by
  obtain ⟨c, gr, graw⟩ := env
  obtain ⟨c2, gr2, graw2⟩ := env2
  simp only at hc hc2
  subst hc hc2
  cases resolve <;> simp only at he <;> subst he <;> simp [cmd_get]

/-- C8 witness: a concrete invocation where access raises a
CircularReferenceError behaves as stated, and a concrete load failure
exits 2. -/
theorem get_default_on_error_witness :
    cmd_get ⟨.ok (), .error HoloErr.circularReferenceError, .ok PyValue.none⟩
        "a.b" true "text" (some "fallback") =
      (0, [OutLine.printStr "fallback"], []) ∧
    cmd_get ⟨.ok (), .error HoloErr.circularReferenceError, .ok PyValue.none⟩
        "a.b" true "text" none = (1, [], [ErrLine.pathNotFound "a.b"]) ∧
    cmd_get ⟨.error HoloErr.parseError, .ok PyValue.none, .ok PyValue.none⟩
        "a.b" true "text" (some "fallback") = (2, [], [ErrLine.loadFailed]) :=
  get_default_on_error
    ⟨.ok (), .error HoloErr.circularReferenceError, .ok PyValue.none⟩
    ⟨.error HoloErr.parseError, .ok PyValue.none, .ok PyValue.none⟩
    HoloErr.circularReferenceError HoloErr.parseError
    "a.b" true "text" "fallback" (some "fallback") rfl rfl rfl

/-- C3: for a well-formed path, the resolver raises the NotFound marker
(KeyError) exactly when the client error code is ParameterNotFound; the
engine default rewrites the outcome exactly in that case; and any other
client error code propagates as a ClientError, on which the engine default
has no effect. -/
theorem ssm_notfound_classification (path code : String)
    (client : SsmClientResult) (d : String)
    (h : startsWithSlash path = true) (hcode : code ≠ "ParameterNotFound") :
    (isNotFound (SsmResolver.call path client).1 = true ↔
      client = SsmClientResult.clientError "ParameterNotFound") ∧
    (applyEngineDefault (SsmResolver.call path client).1 (some d) ≠
        (SsmResolver.call path client).1 ↔
      client = SsmClientResult.clientError "ParameterNotFound") ∧
    (SsmResolver.call path (.clientError code)).1 =
      .error (.clientError code) ∧
    applyEngineDefault (SsmResolver.call path (.clientError code)).1 (some d) =
      .error (.clientError code) := by
  refine ⟨?_, ?_, ?_, ?_⟩
  · cases client with
    | clientError c =>
      by_cases hc : c = "ParameterNotFound" <;>
        simp [SsmResolver.call, isNotFound, h, hc]
    | ok resp =>
      simp only [SsmResolver.call, h, Bool.not_true, Bool.false_eq_true, if_false]
      by_cases h1 : resp.ptype.getD "String" = "SecureString" <;>
        by_cases h2 : resp.ptype.getD "String" = "StringList" <;>
        simp [isNotFound, h1, h2]
  · cases client with
    | clientError c =>
      by_cases hc : c = "ParameterNotFound" <;>
        simp [SsmResolver.call, applyEngineDefault, h, hc]
    | ok resp =>
      simp only [SsmResolver.call, h, Bool.not_true, Bool.false_eq_true, if_false]
      by_cases h1 : resp.ptype.getD "String" = "SecureString" <;>
        by_cases h2 : resp.ptype.getD "String" = "StringList" <;>
        simp [applyEngineDefault, h1, h2]
  · simp [SsmResolver.call, h, hcode]
  · simp [SsmResolver.call, applyEngineDefault, h, hcode]

/-- C3 witness: concrete classification at a ParameterNotFound client error
and at an AccessDeniedException client error. -/
theorem ssm_notfound_classification_witness :
    (isNotFound (SsmResolver.call "/app/db"
        (SsmClientResult.clientError "ParameterNotFound")).1 = true ↔
      SsmClientResult.clientError "ParameterNotFound" =
        SsmClientResult.clientError "ParameterNotFound") ∧
    (applyEngineDefault (SsmResolver.call "/app/db"
          (SsmClientResult.clientError "ParameterNotFound")).1 (some "x") ≠
        (SsmResolver.call "/app/db"
          (SsmClientResult.clientError "ParameterNotFound")).1 ↔
      SsmClientResult.clientError "ParameterNotFound" =
        SsmClientResult.clientError "ParameterNotFound") ∧
    (SsmResolver.call "/app/db" (.clientError "AccessDeniedException")).1 =
      .error (.clientError "AccessDeniedException") ∧
    applyEngineDefault
      (SsmResolver.call "/app/db" (.clientError "AccessDeniedException")).1
      (some "x") = .error (.clientError "AccessDeniedException") :=
  ssm_notfound_classification "/app/db" "AccessDeniedException"
    (SsmClientResult.clientError "ParameterNotFound") "x"
    (by decide) (by decide)

/-- C9: for a successful call with a well-formed path, the result is a
ResolvedValue with the sensitive bit set exactly when the parameter Type
is SecureString; a StringList value is split on commas into a list; any
other Type yields the raw string; and a path not starting with a slash
raises ValueError with no get_parameter request issued. -/
theorem ssm_call_result (path bad : String) (resp : SsmResponse)
    (client : SsmClientResult)
    (h : startsWithSlash path = true) (hbad : startsWithSlash bad = false) :
    (((SsmResolver.call path (.ok resp)).1 =
        .ok (.resolvedValue (resp.value.getD "") true)) ↔
      resp.ptype.getD "String" = "SecureString") ∧
    (resp.ptype.getD "String" = "StringList" →
      (SsmResolver.call path (.ok resp)).1 =
        .ok (.list ((resp.value.getD "").splitOn ","))) ∧
    (resp.ptype.getD "String" ≠ "SecureString" →
      resp.ptype.getD "String" ≠ "StringList" →
      (SsmResolver.call path (.ok resp)).1 = .ok (.str (resp.value.getD ""))) ∧
    (SsmResolver.call path (.ok resp)).2 = 1 ∧
    SsmResolver.call bad client = (.error (.valueError bad), 0) := by
  have hb : (!startsWithSlash bad) = true := by simp [hbad]
  refine ⟨?_, ?_, ?_, ?_, ?_⟩ <;>
    simp only [SsmResolver.call, h, hb, Bool.not_true, Bool.false_eq_true,
      if_false, if_true]
  · by_cases h1 : resp.ptype.getD "String" = "SecureString" <;>
      by_cases h2 : resp.ptype.getD "String" = "StringList" <;>
      simp [h1, h2]
  · intro h2
    have h1 : resp.ptype.getD "String" ≠ "SecureString" := by simp [h2]
    simp [h1, h2]
  · intro h1 h2
    simp [h1, h2]
  · by_cases h1 : resp.ptype.getD "String" = "SecureString" <;>
      by_cases h2 : resp.ptype.getD "String" = "StringList" <;>
      simp [h1, h2]

/-- C9 witness: a concrete StringList parameter under a well-formed path,
and a concrete malformed path. -/
theorem ssm_call_result_witness :
    (SsmResolver.call "/app/hosts"
        (.ok ⟨some "a,b", some "StringList"⟩)).1 =
      .ok (.list (("a,b").splitOn ",")) ∧
    SsmResolver.call "nope" (.clientError "AccessDeniedException") =
      (.error (.valueError "nope"), 0) :=
  ⟨(ssm_call_result "/app/hosts" "nope" ⟨some "a,b", some "StringList"⟩
      (.clientError "AccessDeniedException") (by decide) (by decide)).2.1 rfl,
   (ssm_call_result "/app/hosts" "nope" ⟨some "a,b", some "StringList"⟩
      (.clientError "AccessDeniedException") (by decide) (by decide)).2.2.2.2⟩

/-- A non-force registration leaves a name that it registers present in
the registry. -/
theorem hasName_register_resolver (reg : Registry) (name : String) (r : Nat) :
    (register_resolver reg name r false).hasName name = true := by
  unfold register_resolver
  split
  · rename_i hcond
    simpa using hcond
  · simp [Registry.hasName]

/-- A non-force registration of a name that is already registered does not
change the registry. -/
theorem register_resolver_noop (reg : Registry) (name : String) (r : Nat)
    (hreg : reg.hasName name = true) :
    register_resolver reg name r false = reg := by
  unfold register_resolver
  simp [hreg]

/-- C4: a non-force registration of an already-registered name is a no-op
raising no error; registering a name twice without force equals
registering it once; and calling register_ssm twice without force, each
time with a freshly created resolver object, equals calling it once. -/
theorem registration_idempotent (reg : Registry) (name : String)
    (r1 r2 n1 n2 : Nat) (st : SsmState) (hreg : reg.hasName name = true) :
    register_resolver reg name r1 false = reg ∧
    register_resolver (register_resolver reg name r1 false) name r2 false =
      register_resolver reg name r1 false ∧
    register_ssm (register_ssm st false n1) false n2 =
      register_ssm st false n1 := by
  refine ⟨?_, ?_, ?_⟩
  · exact register_resolver_noop reg name r1 hreg
  · exact register_resolver_noop _ name r2 (hasName_register_resolver reg name r1)
  · obtain ⟨b, rg⟩ := st
    cases b <;> simp [register_ssm]

/-- C4 witness: concrete registry already holding the name ssm, and a
concrete fresh state for the double register_ssm call. -/
theorem registration_idempotent_witness :
    register_resolver ⟨[("ssm", 0)]⟩ "ssm" 1 false = ⟨[("ssm", 0)]⟩ ∧
    register_resolver (register_resolver ⟨[("ssm", 0)]⟩ "ssm" 1 false)
        "ssm" 2 false = register_resolver ⟨[("ssm", 0)]⟩ "ssm" 1 false ∧
    register_ssm (register_ssm ⟨false, ⟨[]⟩⟩ false 3) false 4 =
      register_ssm ⟨false, ⟨[]⟩⟩ false 3 :=
  registration_idempotent ⟨[("ssm", 0)]⟩ "ssm" 1 2 3 4 ⟨false, ⟨[]⟩⟩ (by decide)

/-- C10: discover_plugins attempts every entry point in order and returns
exactly the names of the plugins whose registration completed without
raising, in order; a raising plugin is skipped without affecting the
rest. -/
theorem discover_plugins_spec (eps : List EntryPoint) :
    discover_plugins eps = (eps.filter epOk).map (fun ep => ep.name) := by
  induction eps with
  | nil => rfl
  | cons ep rest ih =>
    cases h : ep.runResult <;>
      simp [discover_plugins, epOk, List.filter_cons, h, ih]

end Holoconf
